import Mathlib

/-!
Shallow embedding of the real-time collaboration engine of `texler`
(`src/websocket.rs`, `src/models/collaboration.rs`).

Identifiers (UUIDs) are modelled as `Nat`, server timestamps (`Utc::now()`)
as a `Nat` clock value passed explicitly to every operation that reads the
clock, and the Postgres store as in-memory lists whose append order is the
persisted order.  External collaborators are parameters: JWT verification
(`JwtService::verify_token`) is a function `String → Except String AuthContext`,
bcrypt password verification (`bcrypt::verify`) a function
`String → String → Bool`.
-/

namespace Texler

/-- `AuthContext` from `models/auth.rs`, restricted to the field the
collaboration engine reads (`user_id`). -/
structure AuthContext where
  user_id : Nat
deriving DecidableEq, Repr

/-- `AppError` variants reachable from the collaboration engine
(`error.rs`). -/
inductive AppError where
  | Database : AppError
  | Authentication : String → AppError
  | NotFound : (entity : String) → (id : String) → AppError
  | Validation : String → AppError
  | Server : String → AppError
deriving DecidableEq, Repr

/-- The `thiserror` display strings of `AppError` (`error.rs`), used by
`e.to_string()` when the websocket arms build `Error` frames. -/
def AppError.toMessage : AppError → String
  | .Database => "Database error"
  | .Authentication m => "Authentication error: " ++ m
  | .NotFound entity id => entity ++ " not found: " ++ id
  | .Validation m => "Validation error: " ++ m
  | .Server m => "Server error: " ++ m

/-- `SessionType` (`models/collaboration.rs`). -/
inductive SessionType where
  | Realtime | Review | Tutorial | Meeting
deriving DecidableEq, Repr

/-- `ParticipantRole` (`models/collaboration.rs`). -/
inductive ParticipantRole where
  | Host | Presenter | Editor | Viewer
deriving DecidableEq, Repr

/-- `OperationType` (`models/collaboration.rs`). -/
inductive OperationType where
  | Insert | Delete | Replace | Format | Cursor | Selection
deriving DecidableEq, Repr

/-- `MessageType` (`models/collaboration.rs`). -/
inductive MessageType where
  | Text | System | File | Code
deriving DecidableEq, Repr

/-- `CollaborationSession` row (`models/collaboration.rs`). -/
structure CollaborationSession where
  id : Nat
  project_id : Nat
  file_id : Option Nat
  created_by : Nat
  session_type : SessionType
  title : Option String
  description : Option String
  is_active : Bool
  max_participants : Int
  password_hash : Option String
  settings : Option String
  started_at : Option Nat
  ended_at : Option Nat
  created_at : Nat
  updated_at : Nat
deriving DecidableEq, Repr

/-- `SessionParticipant` row (`models/collaboration.rs`). -/
structure SessionParticipant where
  id : Nat
  session_id : Nat
  user_id : Nat
  role : ParticipantRole
  joined_at : Nat
  left_at : Option Nat
  cursor_position : Option Int
  selection : Option String
  is_online : Bool
  last_seen_at : Nat
  permissions : Option String
deriving DecidableEq, Repr

/-- `SessionOperation` row (`models/collaboration.rs`). -/
structure SessionOperation where
  id : Nat
  session_id : Nat
  user_id : Nat
  operation_type : OperationType
  operation_data : String
  file_id : Option Nat
  position : Option Int
  length : Option Int
  content : Option String
  timestamp : Nat
  applied : Bool
  applied_at : Option Nat
  rejected : Bool
  rejected_at : Option Nat
  rejection_reason : Option String
deriving DecidableEq, Repr

/-- `SessionMessage` row (`models/collaboration.rs`). -/
structure SessionMessage where
  id : Nat
  session_id : Nat
  user_id : Nat
  message_type : MessageType
  content : String
  reply_to : Option Nat
  reactions : Option String
  edited : Bool
  edited_at : Option Nat
  deleted : Bool
  deleted_at : Option Nat
  created_at : Nat
deriving DecidableEq, Repr

/-- The relational store (Session Store collaborator): each list holds the
rows of one table in persisted (insertion) order; `next_id` models the
generator of fresh row ids / UUIDs. -/
structure Db where
  sessions : List CollaborationSession
  participants : List SessionParticipant
  operations : List SessionOperation
  messages : List SessionMessage
  next_id : Nat
deriving DecidableEq, Repr

/-- `CollaborationSession::find_by_id`: `SELECT * FROM collaboration_sessions
WHERE id = $1` (`fetch_optional`). -/
def find_by_id (db : Db) (session_id : Nat) : Option CollaborationSession :=
  db.sessions.find? (fun s => s.id == session_id)

/-- `CollaborationSession::find_with_access`: looks the session up, rejects
inactive sessions, then checks the optional password against the stored
bcrypt hash; every rejection is `Ok(None)`, indistinguishable from a missing
session.  `verify` stands for `bcrypt::verify(provided, hash).unwrap_or(false)`. -/
def find_with_access (db : Db) (verify : String → String → Bool)
    (session_id _user_id : Nat) (password : Option String) :
    Option CollaborationSession :=
  match find_by_id db session_id with
  | none => none
  | some session =>
    if !session.is_active then
      none
    else
      match session.password_hash, password with
      | some session_password, some provided_password =>
        if !(verify provided_password session_password) then none else some session
      | some _, none => none
      | none, _ => some session

/-- `SessionParticipant::join`: unconditional `INSERT INTO session_participants
(session_id, user_id, role, is_online, last_seen_at) VALUES (.., true, now)`
returning the fresh row. -/
def SessionParticipant.join (db : Db) (now : Nat) (session_id user_id : Nat)
    (role : ParticipantRole) : SessionParticipant × Db :=
  let participant : SessionParticipant :=
    { id := db.next_id
      session_id := session_id
      user_id := user_id
      role := role
      joined_at := now
      left_at := none
      cursor_position := none
      selection := none
      is_online := true
      last_seen_at := now
      permissions := none }
  (participant,
   { db with
      participants := db.participants ++ [participant]
      next_id := db.next_id + 1 })

/-- `SessionParticipant::leave`: `UPDATE session_participants SET
is_online = false, left_at = NOW() WHERE id = $1`. -/
def SessionParticipant.leave (db : Db) (now : Nat) (p : SessionParticipant) : Db :=
  { db with
      participants := db.participants.map (fun r =>
        if r.id == p.id then { r with is_online := false, left_at := some now } else r) }

/-- `SessionParticipant::update_cursor`: `UPDATE session_participants SET
cursor_position = $1, selection = $2 WHERE id = $3`. -/
def SessionParticipant.update_cursor (db : Db) (p : SessionParticipant)
    (position : Option Int) (selection : Option String) : Db :=
  { db with
      participants := db.participants.map (fun r =>
        if r.id == p.id then { r with cursor_position := position, selection := selection } else r) }

/-- `SessionParticipant::get_active_participants`: `SELECT * FROM
session_participants WHERE session_id = $1 AND is_online = true`. -/
def get_active_participants (db : Db) (session_id : Nat) : List SessionParticipant :=
  db.participants.filter (fun r => r.session_id == session_id && r.is_online)

/-- `SessionOperation::create`: `INSERT INTO session_operations (session_id,
user_id, operation_type, operation_data, file_id, position, content,
timestamp) VALUES (.., Utc::now())` returning the fresh row; `length` and
the applied/rejected flags are left to their column defaults. -/
def SessionOperation.create (db : Db) (now : Nat) (session_id user_id : Nat)
    (operation_type : OperationType) (operation_data : String)
    (file_id : Option Nat) (position : Option Int) (content : Option String) :
    SessionOperation × Db :=
  let operation : SessionOperation :=
    { id := db.next_id
      session_id := session_id
      user_id := user_id
      operation_type := operation_type
      operation_data := operation_data
      file_id := file_id
      position := position
      length := none
      content := content
      timestamp := now
      applied := false
      applied_at := none
      rejected := false
      rejected_at := none
      rejection_reason := none }
  (operation,
   { db with
      operations := db.operations ++ [operation]
      next_id := db.next_id + 1 })

/-- `SessionOperation::apply`: `UPDATE session_operations SET applied = true,
applied_at = NOW() WHERE id = $1`. -/
def SessionOperation.applyOp (db : Db) (now : Nat) (op : SessionOperation) : Db :=
  { db with
      operations := db.operations.map (fun r =>
        if r.id == op.id then { r with applied := true, applied_at := some now } else r) }

/-- `WsMessage` (`websocket.rs`): the tagged frame set, client and server
directions in one enum exactly as in the source. -/
inductive WsMessage where
  | Authenticate (token : String) (session_id : Option Nat)
  | JoinSession (session_id : Nat) (role : ParticipantRole) (password : Option String)
  | LeaveSession
  | Operation (session_id : Nat) (operation_type : OperationType)
      (position : Option Int) (content : Option String)
      (length : Option Int) (file_id : Option Nat)
  | Cursor (session_id : Nat) (position : Int) (selection : Option String)
  | ChatMessage (session_id : Nat) (content : String)
      (message_type : MessageType) (reply_to : Option Nat)
  | Ping
  | AuthResult (success : Bool) (user : Option AuthContext) (error : Option String)
  | SessionJoined (session_id : Nat) (participants : List SessionParticipant)
      (session_info : CollaborationSession)
  | ParticipantUpdate (session_id : Nat) (participant : SessionParticipant)
  | ParticipantLeft (session_id : Nat) (user_id : Nat)
  | ServerOperation (session_id : Nat) (user_id : Nat)
      (operation_type : OperationType) (position : Option Int)
      (content : Option String) (length : Option Int)
      (file_id : Option Nat) (timestamp : Nat)
  | ServerChatMessage (session_id : Nat) (id : Nat) (user_id : Nat)
      (content : String) (message_type : MessageType)
      (reply_to : Option Nat) (timestamp : Nat)
  | SessionStatus (session_id : Nat) (status : String)
  | Error (code : String) (message : String)
  | Pong
deriving DecidableEq, Repr

/-- `ConnectionState` (`websocket.rs`): the ephemeral per-socket record held
by the Connection Registry. -/
structure ConnectionState where
  user : Option AuthContext
  session_id : Option Nat
  participant_id : Option Nat
  last_heartbeat : Nat
  authenticated : Bool
deriving DecidableEq, Repr

/-- `ConnectionState::default()`: zero-valued entry, `last_heartbeat`
initialised from the clock (`Utc::now()`). -/
def ConnectionState.init (now : Nat) : ConnectionState :=
  { user := none
    session_id := none
    participant_id := none
    last_heartbeat := now
    authenticated := false }

/-- `WsServerState` (`websocket.rs`): the connection registry plus the
store.  The per-session broadcast channels are modelled by returning the
published `(session_id, message)` events alongside each transition instead
of keeping channel objects, since `broadcast_to_session` publishes
unconditionally and never fails. -/
structure WsServerState where
  connections : List (String × ConnectionState)
  db : Db
deriving DecidableEq, Repr

/-- `connections.get(connection_id)` on the registry map. -/
def lookup_connection (s : WsServerState) (connection_id : String) :
    Option ConnectionState :=
  (s.connections.find? (fun kv => kv.1 == connection_id)).map (fun kv => kv.2)

/-- In-place update of one registry entry (the `state.write().await`
mutations in the source); entries of other connections are untouched. -/
def update_connection (s : WsServerState) (connection_id : String)
    (f : ConnectionState → ConnectionState) : WsServerState :=
  { s with
      connections := s.connections.map (fun kv =>
        if kv.1 == connection_id then (kv.1, f kv.2) else kv) }

/-- `WsServerState::register_connection`: inserts a zero-valued entry. -/
def register_connection (s : WsServerState) (now : Nat)
    (connection_id : String) : WsServerState :=
  { s with connections := s.connections ++ [(connection_id, ConnectionState.init now)] }

/-- A broadcast published to a session channel: `(session_id, message)`. -/
abbrev Broadcast := Nat × WsMessage

/-- `WsServerState::handle_session_leave`: fetches the participant row by id;
when present, marks it offline and publishes `ParticipantLeft` with the
fetched row's `user_id`; when absent, does nothing. -/
def handle_session_leave (s : WsServerState) (now : Nat)
    (session_id participant_id : Nat) : WsServerState × List Broadcast :=
  match s.db.participants.find? (fun r => r.id == participant_id) with
  | none => (s, [])
  | some participant =>
    ({ s with db := SessionParticipant.leave s.db now participant },
     [(session_id, WsMessage.ParticipantLeft session_id participant.user_id)])

/-- `WsServerState::unregister_connection`: removes the registry entry and,
when the removed entry still held a session and participant reference, runs
`handle_session_leave` on them. -/
def unregister_connection (s : WsServerState) (now : Nat)
    (connection_id : String) : WsServerState × List Broadcast :=
  match lookup_connection s connection_id with
  | none => (s, [])
  | some st =>
    let s' : WsServerState :=
      { s with connections := s.connections.filter (fun kv => kv.1 != connection_id) }
    match st.session_id, st.participant_id with
    | some session_id, some participant_id =>
        handle_session_leave s' now session_id participant_id
    | _, _ => (s', [])

/-- `WsServerState::handle_session_join`: validates access through
`find_with_access` (absent/inactive/password-mismatching sessions all surface
as `NotFound`), then unconditionally inserts a fresh participant row, points
the connection's registry entry at it, and publishes `ParticipantUpdate`.
No participant-count check occurs anywhere on this path. -/
def handle_session_join (s : WsServerState) (verify : String → String → Bool)
    (now : Nat) (connection_id : String) (session_id user_id : Nat)
    (role : ParticipantRole) (password : Option String) :
    Except AppError (SessionParticipant × WsServerState × List Broadcast) :=
  match find_with_access s.db verify session_id user_id password with
  | none => .error (.NotFound "CollaborationSession" (toString session_id))
  | some _session =>
    let (participant, db') := SessionParticipant.join s.db now session_id user_id role
    let s' := update_connection { s with db := db' } connection_id (fun c =>
      { c with
          session_id := some session_id
          participant_id := some participant.id
          last_heartbeat := now })
    .ok (participant, s',
         [(session_id, WsMessage.ParticipantUpdate session_id participant)])

/-- JSON rendering of an optional integer (`serde_json` emits `null` for
`None`). -/
def jsonOfOptionInt : Option Int → String
  | none => "null"
  | some n => toString n

/-- JSON rendering of an optional string. -/
def jsonOfOptionString : Option String → String
  | none => "null"
  | some str => "\"" ++ str ++ "\""

/-- The `serde_json::json!` payload string built by `handle_operation`. -/
def opData (position : Option Int) (content : Option String)
    (length : Option Int) : String :=
  "\x7b\"position\":" ++ jsonOfOptionInt position ++
  ",\"content\":" ++ jsonOfOptionString content ++
  ",\"length\":" ++ jsonOfOptionInt length ++ "\x7d"

/-- `WsServerState::handle_operation`: serialises the payload, inserts the
operation row with the server clock as timestamp, marks it applied, and
publishes `ServerOperation` carrying the inserted row's timestamp.  The
caller's membership in the session is never consulted. -/
def handle_operation (db : Db) (now : Nat) (session_id user_id : Nat)
    (operation_type : OperationType) (position : Option Int)
    (content : Option String) (length : Option Int) (file_id : Option Nat) :
    Except AppError (Db × List Broadcast) :=
  let operation_data := opData position content length
  let (operation, db') := SessionOperation.create db now session_id user_id
    operation_type operation_data file_id position content
  let db'' := SessionOperation.applyOp db' now operation
  .ok (db'',
       [(session_id,
         WsMessage.ServerOperation session_id user_id operation_type position
           content length file_id operation.timestamp)])

/-- `WsServerState::handle_chat_message`: inserts the message row and
publishes `ServerChatMessage` built from the inserted row. -/
def handle_chat_message (db : Db) (now : Nat) (session_id user_id : Nat)
    (content : String) (message_type : MessageType) (reply_to : Option Nat) :
    Except AppError (Db × List Broadcast) :=
  let message : SessionMessage :=
    { id := db.next_id
      session_id := session_id
      user_id := user_id
      message_type := message_type
      content := content
      reply_to := reply_to
      reactions := none
      edited := false
      edited_at := none
      deleted := false
      deleted_at := none
      created_at := now }
  let db' : Db :=
    { db with messages := db.messages ++ [message], next_id := db.next_id + 1 }
  .ok (db',
       [(session_id,
         WsMessage.ServerChatMessage session_id message.id user_id
           message.content message_type message.reply_to message.created_at)])

instance {ε α : Type} [DecidableEq ε] [DecidableEq α] :
    DecidableEq (Except ε α) := fun x y =>
  match x, y with
  | .ok a, .ok b =>
    if h : a = b then isTrue (by rw [h])
    else isFalse (by intro hh; cases hh; exact h rfl)
  | .error a, .error b =>
    if h : a = b then isTrue (by rw [h])
    else isFalse (by intro hh; cases hh; exact h rfl)
  | .ok _, .error _ => isFalse (by intro hh; cases hh)
  | .error _, .ok _ => isFalse (by intro hh; cases hh)

/-- Result of one `handle_ws_message` call: the new server state, the
handler-local `broadcast_receiver` subscription (the session it is
subscribed to, if any), the frames sent back to this connection through
`sender`, the events published to session channels, and the `Result` the
function returns to the select loop. -/
structure HandlerResult where
  state : WsServerState
  sub : Option Nat
  sent : List WsMessage
  broadcasts : List Broadcast
  result : Except AppError Unit
deriving DecidableEq, Repr

/-- `handle_ws_message` (`websocket.rs`): dispatch on the parsed frame.
`verifyToken` stands for `JwtService::verify_token`, `verify` for
`bcrypt::verify` inside `find_with_access`.  Frames other than the six
client tags handled by the source `match` (in particular `Cursor`) fall to
the wildcard arm, which only logs. -/
def handle_ws_message (verifyToken : String → Except String AuthContext)
    (verify : String → String → Bool) (now : Nat) (connection_id : String)
    (ws_message : WsMessage) (s : WsServerState) (sub : Option Nat) :
    HandlerResult :=
  match ws_message with
  | .Authenticate token session_id =>
    (match verifyToken token with
     | .ok auth_context =>
       let s' := update_connection s connection_id (fun c =>
         { c with
             user := some auth_context
             authenticated := true
             last_heartbeat := now })
       let sub' := match session_id with
         | some sid => some sid
         | none => sub
       { state := s', sub := sub'
         sent := [WsMessage.AuthResult true (some auth_context) none]
         broadcasts := [], result := .ok () }
     | .error e =>
       { state := s, sub := sub
         sent := [WsMessage.AuthResult false none (some ("Authentication failed: " ++ e))]
         broadcasts := [], result := .ok () })
  | .JoinSession session_id role password =>
    (match (lookup_connection s connection_id).bind (fun c =>
        c.user.map (fun u => u.user_id)) with
     | none =>
       { state := s, sub := sub, sent := [], broadcasts := []
         result := .error (.Authentication "Not authenticated") }
     | some user_id =>
       match handle_session_join s verify now connection_id session_id user_id role password with
       | .ok (_participant, s', bs) =>
         (match find_by_id s'.db session_id with
          | none =>
            { state := s', sub := sub, sent := [], broadcasts := bs
              result := .error (.NotFound "CollaborationSession" (toString session_id)) }
          | some session_info =>
            let current_participants := get_active_participants s'.db session_id
            { state := s', sub := some session_id
              sent := [WsMessage.SessionJoined session_id current_participants session_info]
              broadcasts := bs, result := .ok () })
       | .error e =>
         { state := s, sub := sub
           sent := [WsMessage.Error "JOIN_FAILED" e.toMessage]
           broadcasts := [], result := .ok () })
  | .LeaveSession =>
    let refs := match lookup_connection s connection_id with
      | some c => (c.session_id, c.participant_id)
      | none => (none, none)
    (match refs with
     | (some session_id, some participant_id) =>
       let (s', bs) := handle_session_leave s now session_id participant_id
       { state := s', sub := sub, sent := [], broadcasts := bs, result := .ok () }
     | _ =>
       { state := s, sub := sub, sent := [], broadcasts := [], result := .ok () })
  | .Operation session_id operation_type position content length file_id =>
    (match (lookup_connection s connection_id).bind (fun c =>
        c.user.map (fun u => u.user_id)) with
     | none =>
       { state := s, sub := sub, sent := [], broadcasts := []
         result := .error (.Authentication "Not authenticated") }
     | some user_id =>
       match handle_operation s.db now session_id user_id operation_type
           position content length file_id with
       | .ok (db', bs) =>
         { state := { s with db := db' }, sub := sub, sent := []
           broadcasts := bs, result := .ok () }
       | .error e =>
         { state := s, sub := sub
           sent := [WsMessage.Error "OPERATION_FAILED" e.toMessage]
           broadcasts := [], result := .ok () })
  | .ChatMessage session_id content message_type reply_to =>
    (match (lookup_connection s connection_id).bind (fun c =>
        c.user.map (fun u => u.user_id)) with
     | none =>
       { state := s, sub := sub, sent := [], broadcasts := []
         result := .error (.Authentication "Not authenticated") }
     | some user_id =>
       match handle_chat_message s.db now session_id user_id content
           message_type reply_to with
       | .ok (db', bs) =>
         { state := { s with db := db' }, sub := sub, sent := []
           broadcasts := bs, result := .ok () }
       | .error e =>
         { state := s, sub := sub
           sent := [WsMessage.Error "MESSAGE_FAILED" e.toMessage]
           broadcasts := [], result := .ok () })
  | .Ping =>
    { state := s, sub := sub, sent := [WsMessage.Pong], broadcasts := []
      result := .ok () }
  | _ =>
    { state := s, sub := sub, sent := [], broadcasts := [], result := .ok () }

/-- Outcome of one pass of the `handle_websocket_connection` select loop on
an inbound client frame: when `handle_ws_message` returns `Err`, the loop
logs, `break`s, and the post-loop cleanup calls `unregister_connection`;
`closed = true` records that the socket was torn down. -/
structure LoopResult where
  state : WsServerState
  sub : Option Nat
  sent : List WsMessage
  broadcasts : List Broadcast
  closed : Bool
deriving DecidableEq, Repr

/-- One iteration of the connection event loop over an inbound frame
(`handle_websocket_connection`, inbound-message branch, plus the cleanup
after the loop when the handler errors). -/
def loop_iteration (verifyToken : String → Except String AuthContext)
    (verify : String → String → Bool) (now : Nat) (connection_id : String)
    (ws_message : WsMessage) (s : WsServerState) (sub : Option Nat) :
    LoopResult :=
  let r := handle_ws_message verifyToken verify now connection_id ws_message s sub
  match r.result with
  | .ok _ =>
    { state := r.state, sub := r.sub, sent := r.sent
      broadcasts := r.broadcasts, closed := false }
  | .error _ =>
    let (s', bs) := unregister_connection r.state now connection_id
    { state := s', sub := r.sub, sent := r.sent
      broadcasts := r.broadcasts ++ bs, closed := true }

/-- Transport-level (tungstenite) frames that appear in the heartbeat and
pong paths. -/
inductive TransportMessage where
  | Text (payload : String)
  | Binary
  | Ping
  | Pong
  | Close
deriving DecidableEq, Repr

/-- The heartbeat branch of the select loop (`heartbeat_interval.tick()`):
sends a transport `Ping` and nothing else — no registry entry is read or
written, no timeout comparison against `last_heartbeat` exists. -/
def heartbeat_tick (s : WsServerState) : WsServerState × List TransportMessage :=
  (s, [TransportMessage.Ping])

/-- The `Message::Pong` arm of `handle_message`: refreshes the connection's
`last_heartbeat` from the clock; nothing else ever reads that field. -/
def handle_transport_pong (s : WsServerState) (now : Nat)
    (connection_id : String) : WsServerState :=
  update_connection s connection_id (fun c => { c with last_heartbeat := now })

/-! ### Derived views used to state the properties -/

/-- The operations persisted for one session, in persisted order. -/
def session_ops (db : Db) (session_id : Nat) : List SessionOperation :=
  db.operations.filter (fun o => o.session_id == session_id)

/-- The participant rows of one `(session, user)` pair that are online. -/
def online_rows (db : Db) (session_id user_id : Nat) : List SessionParticipant :=
  db.participants.filter (fun r =>
    r.session_id == session_id && r.user_id == user_id && r.is_online)

/-- The number of online participants of a session, as the join path would
count it from the store. -/
def online_count (db : Db) (session_id : Nat) : Nat :=
  (get_active_participants db session_id).length

/-! ### Shared concrete fixtures -/

/-- An active, password-free session with id 1 and a participant cap of 1. -/
def baseSession : CollaborationSession :=
  { id := 1
    project_id := 100
    file_id := none
    created_by := 10
    session_type := .Realtime
    title := none
    description := none
    is_active := true
    max_participants := 1
    password_hash := none
    settings := none
    started_at := none
    ended_at := none
    created_at := 0
    updated_at := 0 }

/-- An online participant row: user 10 in session 1, row id 50. -/
def onlineRow : SessionParticipant :=
  { id := 50
    session_id := 1
    user_id := 10
    role := .Editor
    joined_at := 0
    left_at := none
    cursor_position := none
    selection := none
    is_online := true
    last_seen_at := 0
    permissions := none }

/-- Store holding `baseSession` with `onlineRow` as its only (online)
participant. -/
def baseDb : Db :=
  { sessions := [baseSession]
    participants := [onlineRow]
    operations := []
    messages := []
    next_id := 60 }

/-- Registry entry of a connection authenticated as `user_id` that has not
joined any session. -/
def connAuth (user_id : Nat) : ConnectionState :=
  { user := some { user_id := user_id }
    session_id := none
    participant_id := none
    last_heartbeat := 0
    authenticated := true }

/-- Registry entry of the connection behind `onlineRow`: authenticated as
user 10, joined session 1 as participant 50. -/
def connJoined : ConnectionState :=
  { user := some { user_id := 10 }
    session_id := some 1
    participant_id := some 50
    last_heartbeat := 0
    authenticated := true }

/-- Token verifier fixture: accepts exactly the token `tok42` as user 42. -/
def tokenOk : String → Except String AuthContext :=
  fun t => if t == "tok42" then .ok { user_id := 42 } else .error "invalid token"

/-- Password verifier fixture standing for bcrypt: the hash verifies exactly
against the equal plaintext. -/
def pwEq : String → String → Bool := fun pw h => pw == h

/-! ### Accessors on fallible results, for stating properties -/

/-- The empty store, used as the default of the accessors below. -/
def emptyDb : Db :=
  { sessions := [], participants := [], operations := [], messages := [], next_id := 0 }

/-- Store component of a `handle_operation` / `handle_chat_message` result. -/
def opResultDb (r : Except AppError (Db × List Broadcast)) : Db :=
  match r with
  | .ok (db, _) => db
  | .error _ => emptyDb

/-- Whether a `handle_session_join` result is a success. -/
def joinResultOk
    (r : Except AppError (SessionParticipant × WsServerState × List Broadcast)) : Bool :=
  match r with
  | .ok _ => true
  | .error _ => false

/-- Store component of a successful `handle_session_join` result. -/
def joinResultDb
    (r : Except AppError (SessionParticipant × WsServerState × List Broadcast)) : Db :=
  match r with
  | .ok (_, s', _) => s'.db
  | .error _ => emptyDb

/-! ### Claim C1 — per-session timestamps -/

/-- Store after a first operation accepted for session 1 at clock value 5. -/
def C1db' : Db :=
  opResultDb (handle_operation baseDb 5 1 10 .Insert (some 0) (some "x") none none)

/-- Store after a second operation accepted for session 1 at the same clock
value 5 (the clock did not advance between the two accepts). -/
def C1db'' : Db :=
  opResultDb (handle_operation C1db' 5 1 10 .Insert (some 1) (some "y") none none)

/-- C1 counterexample: `SessionOperation::create` stamps each operation with
the current clock and never compares against the session's previous
operation, so two operations accepted at the same clock reading get equal
timestamps — the persisted order [5, 5] is not strictly increasing, refuting
the strict monotonic-clock claim. -/
theorem C1_counterexample :
    (session_ops C1db'' 1).map (fun o => o.timestamp) = [5, 5] ∧
    ¬ List.Chain' (fun a b => a < b)
        ((session_ops C1db'' 1).map (fun o => o.timestamp)) := by
  have hts : (session_ops C1db'' 1).map (fun o => o.timestamp) = [5, 5] := by decide
  refine ⟨hts, ?_⟩
  rw [hts]
  intro h
  exact absurd (List.chain'_cons.mp h).1 (lt_irrefl 5)

/-! ### Claim C2 — join on a full session -/

/-- Server state for C2: session 1 is full (`max_participants = 1`, one
online participant) and connection `c` is authenticated as user 11. -/
def C2state : WsServerState :=
  { connections := [("c", connAuth 11)], db := baseDb }

/-- The join of user 11 into the full session 1. -/
def C2res : Except AppError (SessionParticipant × WsServerState × List Broadcast) :=
  handle_session_join C2state pwEq 7 "c" 1 11 .Viewer none

/-- C2 counterexample: session 1 is at its cap (1 online participant,
`max_participants = 1`), yet the join succeeds and inserts a second online
row — no `Conflict` is ever produced, because no code path reads
`max_participants`. -/
theorem C2_counterexample :
    online_count baseDb 1 = 1 ∧
    baseSession.max_participants = 1 ∧
    joinResultOk C2res = true ∧
    online_count (joinResultDb C2res) 1 = 2 := by
  decide

/-! ### Claim C3 — session-scoped commands before authentication -/

/-- Server state for C3: connection `c` is registered but has not
authenticated. -/
def C3state : WsServerState :=
  { connections := [("c", ConnectionState.init 0)], db := baseDb }

/-- One select-loop pass over a pre-authentication `JoinSession` frame. -/
def C3loop : LoopResult :=
  loop_iteration tokenOk pwEq 7 "c" (.JoinSession 1 .Viewer none) C3state none

/-- C3 counterexample: an unauthenticated `JoinSession` produces no `Error`
frame at all (`sent = []`) and terminates the connection (the `?` on the
user lookup propagates `AppError::Authentication` to the select loop, which
breaks and unregisters), refuting both halves of the claim. -/
theorem C3_counterexample :
    C3loop.sent = [] ∧
    C3loop.closed = true ∧
    lookup_connection C3loop.state "c" = none := by
  decide

/-! ### Claim C4 — idempotence of leave -/

/-- Server state for C4/C9: connection `c` is joined to session 1 as
participant row 50 (user 10). -/
def C4state : WsServerState :=
  { connections := [("c", connJoined)], db := baseDb }

/-- First `LeaveSession` on the joined connection. -/
def C4r1 : HandlerResult :=
  handle_ws_message tokenOk pwEq 7 "c" .LeaveSession C4state (some 1)

/-- Second `LeaveSession` on the same connection. -/
def C4r2 : HandlerResult :=
  handle_ws_message tokenOk pwEq 8 "c" .LeaveSession C4r1.state (some 1)

/-- C4 counterexample: the `LeaveSession` arm never clears the connection's
session/participant references and `handle_session_leave` does not check
`is_online`, so the second leave fetches the same row again and publishes a
second `ParticipantLeft` broadcast, refuting idempotence. -/
theorem C4_counterexample :
    C4r1.broadcasts = [(1, .ParticipantLeft 1 10)] ∧
    C4r2.broadcasts = [(1, .ParticipantLeft 1 10)] := by
  decide

/-! ### Claim C5 — operations from non-participants -/

/-- Server state for C5: connection `c` is authenticated as user 42, who has
no participant row in session 1 at all. -/
def C5state : WsServerState :=
  { connections := [("c", connAuth 42)], db := baseDb }

/-- The `Operation` frame of the non-participant user 42. -/
def C5r : HandlerResult :=
  handle_ws_message tokenOk pwEq 7 "c"
    (.Operation 1 .Insert (some 0) (some "hi") none none) C5state none

/-- C5 counterexample: user 42 is not a participant of session 1 (online or
otherwise), yet the operation is persisted under their id and broadcast —
the relay checks only authentication, never membership, refuting the
`Unauthorized`-on-non-participant claim. -/
theorem C5_counterexample :
    online_rows baseDb 1 42 = [] ∧
    C5r.result = .ok () ∧
    (session_ops C5r.state.db 1).map (fun o => o.user_id) = [42] ∧
    C5r.broadcasts =
      [(1, .ServerOperation 1 42 .Insert (some 0) (some "hi") none none 7)] := by
  decide

/-! ### Claim C6 — at most one online row per (session, user) -/

/-- Server state for C6: user 10 is already online in session 1 (row 50) and
rejoins through connection `d`. -/
def C6state : WsServerState :=
  { connections := [("d", connAuth 10)], db := baseDb }

/-- The rejoin of the already-online user 10. -/
def C6res : Except AppError (SessionParticipant × WsServerState × List Broadcast) :=
  handle_session_join C6state pwEq 7 "d" 1 10 .Editor none

/-- C6 counterexample: `SessionParticipant::join` is an unconditional
`INSERT`, so the rejoin of the already-online user 10 creates a second
online row for `(session 1, user 10)` instead of reusing or retiring the
stale one, refuting the at-most-one-online-row invariant. -/
theorem C6_counterexample :
    (online_rows baseDb 1 10).length = 1 ∧
    joinResultOk C6res = true ∧
    (online_rows (joinResultDb C6res) 1 10).length = 2 := by
  decide

/-! ### Claim C8 — idle-timeout cleanup -/

/-- C8 counterexample: connection `c` has `last_heartbeat = 0`, arbitrarily
far in the past, yet a monitor cycle (the heartbeat branch of the select
loop) only emits a transport `Ping`: the state is returned unchanged, the
connection stays registered, user 10's row stays online, and nothing is
broadcast — no idle-timeout comparison against `last_heartbeat` exists
anywhere, refuting the cleanup-within-one-cycle claim. -/
theorem C8_counterexample :
    connJoined.last_heartbeat = 0 ∧
    heartbeat_tick C4state = (C4state, [TransportMessage.Ping]) ∧
    online_rows (heartbeat_tick C4state).1.db 1 10 = [onlineRow] ∧
    lookup_connection (heartbeat_tick C4state).1 "c" = some connJoined := by
  decide

/-! ### Claim C9 — cursor frames -/

/-- A `Cursor` frame from the joined participant (user 10, row 50, whose
stored `cursor_position` is `none`). -/
def C9r : HandlerResult :=
  handle_ws_message tokenOk pwEq 7 "c" (.Cursor 1 42 (some "sel")) C4state (some 1)

/-- C9 counterexample: the `Cursor` frame from a joined participant falls to
the wildcard arm of `handle_ws_message`: the server state is unchanged — in
particular the participant row's `cursor_position` is still `none`, not the
sent position 42 — and nothing is sent or broadcast, refuting the claim that
cursor updates are persisted on the participant row. -/
theorem C9_counterexample :
    C9r.state = C4state ∧
    C9r.sent = [] ∧
    C9r.broadcasts = [] ∧
    C9r.result = .ok () ∧
    (online_rows C9r.state.db 1 10).map (fun r => r.cursor_position) = [none] := by
  decide

/-! ### Claim C10 — failed authentication is atomic -/

/-- C10: when the token fails verification, the `Authenticate` arm replies
with exactly one `AuthResult` frame with `success = false` and an error
message, the server state (hence the connection's registry entry: `user`,
`authenticated`, session and participant references) is unchanged, the
broadcast subscription is unchanged, nothing is broadcast, the handler
returns `Ok`, and the select loop keeps the connection open. -/
theorem C10_auth_failure_atomic
    (verifyToken : String → Except String AuthContext)
    (verify : String → String → Bool) (now : Nat) (cid : String)
    (token : String) (osid : Option Nat) (s : WsServerState) (sub : Option Nat)
    (e : String) (h : verifyToken token = .error e) :
    handle_ws_message verifyToken verify now cid (.Authenticate token osid) s sub =
      { state := s
        sub := sub
        sent := [WsMessage.AuthResult false none (some ("Authentication failed: " ++ e))]
        broadcasts := []
        result := .ok () } ∧
    (loop_iteration verifyToken verify now cid (.Authenticate token osid) s sub).closed
      = false := by
  constructor
  · simp [handle_ws_message, h]
  · simp [loop_iteration, handle_ws_message, h]

/-- C10 witness: the fixture verifier rejects the token `bad`; the theorem
applied at that input. -/
theorem C10_auth_failure_atomic_witness :
    handle_ws_message tokenOk pwEq 7 "c" (.Authenticate "bad" none) C3state none =
      { state := C3state
        sub := none
        sent := [WsMessage.AuthResult false none
          (some ("Authentication failed: " ++ "invalid token"))]
        broadcasts := []
        result := .ok () } ∧
    (loop_iteration tokenOk pwEq 7 "c" (.Authenticate "bad" none) C3state none).closed
      = false :=
  C10_auth_failure_atomic tokenOk pwEq 7 "c" "bad" none C3state none
    "invalid token" (by decide)

/-! ### Claim C7 — wrong password is indistinguishable from a missing session -/

/-- C7: joining a password-protected active session with a wrong (or
missing) credential produces exactly the response of joining a non-existent
session: the same single `Error` frame derived from the `NotFound` error, no
state change, no broadcast, and an `Ok` handler result (connection stays
open) in both cases — an observer cannot tell the two apart. -/
theorem C7_wrong_password_like_not_found
    (verifyToken : String → Except String AuthContext)
    (verify : String → String → Bool) (now : Nat) (cid : String)
    (sid : Nat) (role : ParticipantRole) (pw : Option String)
    (uid1 uid2 : Nat) (s1 s2 : WsServerState) (sub1 sub2 : Option Nat)
    (sess : CollaborationSession) (hash : String)
    (hu1 : (lookup_connection s1 cid).bind (fun c => c.user.map (fun u => u.user_id))
      = some uid1)
    (hu2 : (lookup_connection s2 cid).bind (fun c => c.user.map (fun u => u.user_id))
      = some uid2)
    (hs1 : find_by_id s1.db sid = some sess)
    (hactive : sess.is_active = true)
    (hhash : sess.password_hash = some hash)
    (hpw : ∀ p, pw = some p → verify p hash = false)
    (hs2 : find_by_id s2.db sid = none) :
    (handle_ws_message verifyToken verify now cid (.JoinSession sid role pw) s1 sub1).sent
      = (handle_ws_message verifyToken verify now cid (.JoinSession sid role pw) s2 sub2).sent ∧
    (handle_ws_message verifyToken verify now cid (.JoinSession sid role pw) s1 sub1)
      = { state := s1, sub := sub1
          sent := [WsMessage.Error "JOIN_FAILED"
            ((AppError.NotFound "CollaborationSession" (toString sid)).toMessage)]
          broadcasts := [], result := .ok () } ∧
    (handle_ws_message verifyToken verify now cid (.JoinSession sid role pw) s2 sub2)
      = { state := s2, sub := sub2
          sent := [WsMessage.Error "JOIN_FAILED"
            ((AppError.NotFound "CollaborationSession" (toString sid)).toMessage)]
          broadcasts := [], result := .ok () } := by
  have hfwa1 : find_with_access s1.db verify sid uid1 pw = none := by
    unfold find_with_access
    rw [hs1]
    cases pw with
    | none => simp [hactive, hhash]
    | some p => simp [hactive, hhash, hpw p rfl]
  have hfwa2 : find_with_access s2.db verify sid uid2 pw = none := by
    unfold find_with_access
    rw [hs2]
  have h1 : handle_ws_message verifyToken verify now cid (.JoinSession sid role pw) s1 sub1
      = { state := s1, sub := sub1
          sent := [WsMessage.Error "JOIN_FAILED"
            ((AppError.NotFound "CollaborationSession" (toString sid)).toMessage)]
          broadcasts := [], result := .ok () } := by
    simp [handle_ws_message, hu1, handle_session_join, hfwa1]
  have h2 : handle_ws_message verifyToken verify now cid (.JoinSession sid role pw) s2 sub2
      = { state := s2, sub := sub2
          sent := [WsMessage.Error "JOIN_FAILED"
            ((AppError.NotFound "CollaborationSession" (toString sid)).toMessage)]
          broadcasts := [], result := .ok () } := by
    simp [handle_ws_message, hu2, handle_session_join, hfwa2]
  exact ⟨by rw [h1, h2], h1, h2⟩

/-- Session 1 protected by the stored hash `secret` (under the fixture
verifier, only the plaintext `secret` matches). -/
def pwSession : CollaborationSession :=
  { baseSession with password_hash := some "secret" }

/-- State for the C7 witness, wrong-password side: session 1 exists, active,
password-protected. -/
def C7stateA : WsServerState :=
  { connections := [("c", connAuth 11)], db := { baseDb with sessions := [pwSession] } }

/-- State for the C7 witness, missing-session side: no session 1 at all. -/
def C7stateB : WsServerState :=
  { connections := [("c", connAuth 11)], db := { baseDb with sessions := [] } }

/-- C7 witness: the theorem applied at the concrete fixtures, with the wrong
password `wrong` against the stored hash `secret`. -/
theorem C7_wrong_password_like_not_found_witness :
    (handle_ws_message tokenOk pwEq 7 "c" (.JoinSession 1 .Viewer (some "wrong"))
        C7stateA none).sent
      = (handle_ws_message tokenOk pwEq 7 "c" (.JoinSession 1 .Viewer (some "wrong"))
        C7stateB none).sent ∧
    (handle_ws_message tokenOk pwEq 7 "c" (.JoinSession 1 .Viewer (some "wrong"))
        C7stateA none)
      = { state := C7stateA, sub := none
          sent := [WsMessage.Error "JOIN_FAILED"
            ((AppError.NotFound "CollaborationSession" (toString 1)).toMessage)]
          broadcasts := [], result := .ok () } ∧
    (handle_ws_message tokenOk pwEq 7 "c" (.JoinSession 1 .Viewer (some "wrong"))
        C7stateB none)
      = { state := C7stateB, sub := none
          sent := [WsMessage.Error "JOIN_FAILED"
            ((AppError.NotFound "CollaborationSession" (toString 1)).toMessage)]
          broadcasts := [], result := .ok () } :=
  C7_wrong_password_like_not_found tokenOk pwEq 7 "c" 1 .Viewer (some "wrong")
    11 11 C7stateA C7stateB none none pwSession "secret"
    (by decide) (by decide) (by decide) (by decide) (by decide)
    (by intro p hp; cases hp; decide) (by decide)

/-! ### Helper lemmas shared by the amended theorems -/

/-- The operation row inserted by `handle_operation` (the first component of
`SessionOperation::create`). -/
def createdOp (db : Db) (now : Nat) (session_id user_id : Nat)
    (operation_type : OperationType) (position : Option Int)
    (content : Option String) (length : Option Int) (file_id : Option Nat) :
    SessionOperation :=
  (SessionOperation.create db now session_id user_id operation_type
    (opData position content length) file_id position content).1

/-- Marking rows applied (`SessionOperation::apply`) changes neither a row's
session nor any projection `g` insensitive to the applied flags, so the
`g`-image of a session's operation list is invariant under the update map. -/
theorem filter_map_applied_invariant {β : Type} (g : SessionOperation → β)
    (ops : List SessionOperation) (now opid sid : Nat)
    (hg : ∀ r : SessionOperation,
      g { r with applied := true, applied_at := some now } = g r) :
    ((ops.map (fun r =>
        if r.id == opid then { r with applied := true, applied_at := some now } else r)).filter
      (fun o => o.session_id == sid)).map g
    = (ops.filter (fun o => o.session_id == sid)).map g := by
  rw [List.filter_map]
  rw [List.filter_congr (q := fun o => o.session_id == sid) ?hpq]
  case hpq =>
    intro r _
    by_cases h : (r.id == opid) = true
    · simp only [Function.comp_apply, if_pos h]
    · simp only [Function.comp_apply, if_neg h]
  rw [List.map_map]
  refine List.map_congr_left ?_
  intro r _
  by_cases h : (r.id == opid) = true
  · simp only [Function.comp_apply, if_pos h, hg]
  · simp only [Function.comp_apply, if_neg h]

/-- Effect of `handle_operation` on one session's persisted operations, seen
through any projection `g` that ignores the applied flags: the list is
extended, in persisted order, by exactly the freshly created row. -/
theorem handle_operation_session_map {β : Type} (g : SessionOperation → β)
    (db : Db) (now sid uid : Nat) (ty : OperationType) (pos : Option Int)
    (content : Option String) (len : Option Int) (fid : Option Nat)
    (hg : ∀ r : SessionOperation,
      g { r with applied := true, applied_at := some now } = g r) :
    (session_ops (opResultDb (handle_operation db now sid uid ty pos content len fid)) sid).map g
      = (session_ops db sid).map g ++ [g (createdOp db now sid uid ty pos content len fid)] := by
  show ((((db.operations ++ [createdOp db now sid uid ty pos content len fid]).map
      (fun r => if r.id == (createdOp db now sid uid ty pos content len fid).id
        then { r with applied := true, applied_at := some now } else r)).filter
      (fun o => o.session_id == sid)).map g)
    = (session_ops db sid).map g ++ [g (createdOp db now sid uid ty pos content len fid)]
  rw [List.map_append, List.filter_append, List.map_append]
  rw [filter_map_applied_invariant g db.operations now _ sid hg]
  have hid : ((createdOp db now sid uid ty pos content len fid).id
      == (createdOp db now sid uid ty pos content len fid).id) = true :=
    beq_self_eq_true _
  have hsid : ((createdOp db now sid uid ty pos content len fid).session_id == sid) = true :=
    beq_self_eq_true _
  simp [session_ops, List.filter_cons, hid, hsid, hg]

/-- `update_connection` leaves the store untouched. -/
theorem update_connection_db (s : WsServerState) (cid : String)
    (f : ConnectionState → ConnectionState) :
    (update_connection s cid f).db = s.db := rfl

/-- Whatever is found by `find?` on a keyed list survives the
mark-offline map (`SessionParticipant::leave`) with its flags updated. -/
theorem find_map_leave (l : List SessionParticipant) (pid : Nat)
    (row : SessionParticipant) (now : Nat)
    (hfind : l.find? (fun r => r.id == pid) = some row) :
    (l.map (fun r => if r.id == row.id
        then { r with is_online := false, left_at := some now } else r)).find?
      (fun r => r.id == pid)
      = some { row with is_online := false, left_at := some now } := by
  have hrowid : (row.id == pid) = true := by
    have h0 := List.find?_some hfind
    simpa using h0
  induction l with
  | nil => simp at hfind
  | cons hd tl ih =>
    by_cases h : (hd.id == pid) = true
    · rw [List.find?_cons_of_pos (p := fun r : SessionParticipant => r.id == pid) tl h] at hfind
      cases hfind
      have hh : (row.id == row.id) = true := beq_self_eq_true _
      simp only [List.map_cons, if_pos hh]
      exact List.find?_cons_of_pos (p := fun r : SessionParticipant => r.id == pid) _ h
    · rw [List.find?_cons_of_neg (p := fun r : SessionParticipant => r.id == pid) tl h] at hfind
      have hne : ¬ ((hd.id == row.id) = true) := by
        have hre : row.id = pid := beq_iff_eq.mp hrowid
        rw [hre]
        exact h
      simp only [List.map_cons, if_neg hne]
      rw [List.find?_cons_of_neg (p := fun r : SessionParticipant => r.id == pid) _ h]
      exact ih hfind

/-! ### Claim C1 — amended: clock-stamped, not strictly monotonic -/

/-- C1 amended: every operation persisted by `handle_operation` carries the
server clock at acceptance as its timestamp and is appended at the end of
the session's persisted order; provided the clock reading is at least every
already-persisted timestamp of that session, the per-session timestamp
sequence stays non-decreasing in persisted order.  Strict increase is not
enforced anywhere (see the counterexample: an unchanged clock yields equal
timestamps). -/
theorem C1_amended_clock_stamp (db : Db) (now sid uid : Nat)
    (ty : OperationType) (pos : Option Int) (content : Option String)
    (len : Option Int) (fid : Option Nat)
    (hle : ∀ o ∈ session_ops db sid, o.timestamp ≤ now)
    (hchain : List.Chain' (fun a b => a ≤ b)
      ((session_ops db sid).map (fun o => o.timestamp))) :
    (session_ops (opResultDb (handle_operation db now sid uid ty pos content len fid)) sid).map
        (fun o => o.timestamp)
      = (session_ops db sid).map (fun o => o.timestamp) ++ [now] ∧
    List.Chain' (fun a b => a ≤ b)
      ((session_ops (opResultDb (handle_operation db now sid uid ty pos content len fid)) sid).map
        (fun o => o.timestamp)) := by
  have hmap := handle_operation_session_map (fun o => o.timestamp) db now sid uid
    ty pos content len fid (fun _ => rfl)
  refine ⟨hmap, ?_⟩
  rw [hmap]
  refine List.chain'_append.mpr ⟨hchain, List.chain'_singleton _, ?_⟩
  intro x hx y hy
  have hy' : y = (createdOp db now sid uid ty pos content len fid).timestamp := by
    rw [List.head?_cons] at hy
    have := Option.mem_def.mp hy
    exact (Option.some.injEq _ _).mp this.symm
  have hxmem : x ∈ (session_ops db sid).map (fun o => o.timestamp) := by
    rcases List.mem_getLast?_eq_getLast hx with ⟨hne, rfl⟩
    exact List.getLast_mem hne
  rcases List.mem_map.mp hxmem with ⟨o, ho, rfl⟩
  rw [hy']
  exact hle o ho

/-- C1 witness: the amended theorem at the empty operation log of session 1
in `baseDb`, clock value 5. -/
theorem C1_amended_clock_stamp_witness :
    (session_ops (opResultDb (handle_operation baseDb 5 1 10 .Insert (some 0) (some "x") none none)) 1).map
        (fun o => o.timestamp)
      = (session_ops baseDb 1).map (fun o => o.timestamp) ++ [5] ∧
    List.Chain' (fun a b => a ≤ b)
      ((session_ops (opResultDb (handle_operation baseDb 5 1 10 .Insert (some 0) (some "x") none none)) 1).map
        (fun o => o.timestamp)) :=
  C1_amended_clock_stamp baseDb 5 1 10 .Insert (some 0) (some "x") none none
    (by intro o ho; simp [session_ops, baseDb] at ho)
    (by rw [show session_ops baseDb 1 = [] from rfl]; exact List.chain'_nil)

/-! ### Claim C2 — amended: the cap is never enforced -/

/-- C2 amended: the join path never reads `max_participants` — whenever
access validation (`find_with_access`) passes, `handle_session_join`
succeeds and inserts a fresh online participant row even when the session's
online count has already reached (or exceeded) the cap; no `Conflict` error
exists on this path and the online count simply grows by one. -/
theorem C2_amended_no_cap_check (s : WsServerState)
    (verify : String → String → Bool) (now : Nat) (cid : String)
    (sid uid : Nat) (role : ParticipantRole) (pw : Option String)
    (sess : CollaborationSession)
    (hfind : find_with_access s.db verify sid uid pw = some sess)
    (hfull : (online_count s.db sid : Int) ≥ sess.max_participants) :
    joinResultOk (handle_session_join s verify now cid sid uid role pw) = true ∧
    online_count (joinResultDb (handle_session_join s verify now cid sid uid role pw)) sid
      = online_count s.db sid + 1 := by
  unfold handle_session_join
  rw [hfind]
  refine ⟨rfl, ?_⟩
  show ((s.db.participants ++ [(SessionParticipant.join s.db now sid uid role).1]).filter
      (fun r => r.session_id == sid && r.is_online)).length
    = online_count s.db sid + 1
  rw [List.filter_append]
  have hp : (((SessionParticipant.join s.db now sid uid role).1.session_id == sid)
      && (SessionParticipant.join s.db now sid uid role).1.is_online) = true := by
    simp [SessionParticipant.join]
  simp only [List.filter_cons, hp, List.filter_nil, List.length_append]
  rfl

/-- C2 witness: the amended theorem at the full fixture session (cap 1, one
online participant), joined by user 11. -/
theorem C2_amended_no_cap_check_witness :
    joinResultOk (handle_session_join C2state pwEq 7 "c" 1 11 .Viewer none) = true ∧
    online_count (joinResultDb (handle_session_join C2state pwEq 7 "c" 1 11 .Viewer none)) 1
      = online_count C2state.db 1 + 1 :=
  C2_amended_no_cap_check C2state pwEq 7 "c" 1 11 .Viewer none baseSession
    (by decide) (by decide)

/-! ### Claim C3 — amended: pre-auth commands close the connection -/

/-- C3 amended: on a connection whose registry entry holds no authenticated
user, the session-scoped commands `JoinSession`, `Operation` and
`ChatMessage` each fail with `AppError::Authentication` without sending any
frame (no `Error` frame) and without touching state, and the select loop
thereupon closes and unregisters the connection; a pre-auth `Cursor` frame
is silently ignored (no error, no effect).  The claimed
`Error`-frame-and-stay-open behaviour does not exist. -/
theorem C3_amended_unauthenticated_closes
    (verifyToken : String → Except String AuthContext)
    (verify : String → String → Bool) (now : Nat) (cid : String)
    (s : WsServerState) (sub : Option Nat) (sid : Nat)
    (role : ParticipantRole) (pw : Option String) (ty : OperationType)
    (pos : Option Int) (content : Option String) (len : Option Int)
    (fid : Option Nat) (ct : String) (mt : MessageType) (rt : Option Nat)
    (cpos : Int) (csel : Option String)
    (hu : (lookup_connection s cid).bind (fun c => c.user.map (fun u => u.user_id))
      = none) :
    handle_ws_message verifyToken verify now cid (.JoinSession sid role pw) s sub
      = { state := s, sub := sub, sent := [], broadcasts := []
          result := .error (.Authentication "Not authenticated") } ∧
    (loop_iteration verifyToken verify now cid (.JoinSession sid role pw) s sub).closed
      = true ∧
    handle_ws_message verifyToken verify now cid
        (.Operation sid ty pos content len fid) s sub
      = { state := s, sub := sub, sent := [], broadcasts := []
          result := .error (.Authentication "Not authenticated") } ∧
    (loop_iteration verifyToken verify now cid
        (.Operation sid ty pos content len fid) s sub).closed = true ∧
    handle_ws_message verifyToken verify now cid (.ChatMessage sid ct mt rt) s sub
      = { state := s, sub := sub, sent := [], broadcasts := []
          result := .error (.Authentication "Not authenticated") } ∧
    (loop_iteration verifyToken verify now cid (.ChatMessage sid ct mt rt) s sub).closed
      = true ∧
    handle_ws_message verifyToken verify now cid (.Cursor sid cpos csel) s sub
      = { state := s, sub := sub, sent := [], broadcasts := [], result := .ok () } := by
  refine ⟨?_, ?_, ?_, ?_, ?_, ?_, ?_⟩
  · simp [handle_ws_message, hu]
  · simp [loop_iteration, handle_ws_message, hu]
  · simp [handle_ws_message, hu]
  · simp [loop_iteration, handle_ws_message, hu]
  · simp [handle_ws_message, hu]
  · simp [loop_iteration, handle_ws_message, hu]
  · simp [handle_ws_message]

/-- C3 witness: the amended theorem at the registered-but-unauthenticated
fixture connection. -/
theorem C3_amended_unauthenticated_closes_witness :
    handle_ws_message tokenOk pwEq 7 "c" (.JoinSession 1 .Viewer none) C3state none
      = { state := C3state, sub := none, sent := [], broadcasts := []
          result := .error (.Authentication "Not authenticated") } ∧
    (loop_iteration tokenOk pwEq 7 "c" (.JoinSession 1 .Viewer none) C3state none).closed
      = true ∧
    handle_ws_message tokenOk pwEq 7 "c"
        (.Operation 1 .Insert (some 0) (some "hi") none none) C3state none
      = { state := C3state, sub := none, sent := [], broadcasts := []
          result := .error (.Authentication "Not authenticated") } ∧
    (loop_iteration tokenOk pwEq 7 "c"
        (.Operation 1 .Insert (some 0) (some "hi") none none) C3state none).closed = true ∧
    handle_ws_message tokenOk pwEq 7 "c" (.ChatMessage 1 "hello" .Text none) C3state none
      = { state := C3state, sub := none, sent := [], broadcasts := []
          result := .error (.Authentication "Not authenticated") } ∧
    (loop_iteration tokenOk pwEq 7 "c" (.ChatMessage 1 "hello" .Text none) C3state none).closed
      = true ∧
    handle_ws_message tokenOk pwEq 7 "c" (.Cursor 1 5 none) C3state none
      = { state := C3state, sub := none, sent := [], broadcasts := [], result := .ok () } :=
  C3_amended_unauthenticated_closes tokenOk pwEq 7 "c" C3state none 1 .Viewer none
    .Insert (some 0) (some "hi") none none "hello" .Text none 5 none (by decide)

/-! ### Claim C4 — amended: leave re-broadcasts, no-op only when never joined -/

/-- C4 amended: a `LeaveSession` on a connection that never joined
(`participant_id = none`) is a no-op with no error; but leave is *not*
idempotent: when the connection holds session/participant references and the
row exists, every `LeaveSession` marks the row offline and publishes a
`ParticipantLeft` broadcast, and since the arm clears neither reference and
`handle_session_leave` ignores `is_online`, an immediately repeated
`LeaveSession` publishes the same `ParticipantLeft` again. -/
theorem C4_amended_leave_rebroadcasts
    (verifyToken : String → Except String AuthContext)
    (verify : String → String → Bool) (now now' : Nat) (cid cid₀ : String)
    (s s₀ : WsServerState) (sub sub₀ : Option Nat) (c c₀ : ConnectionState)
    (sid pid : Nat) (row : SessionParticipant)
    (hconn : lookup_connection s cid = some c)
    (hsid : c.session_id = some sid)
    (hpid : c.participant_id = some pid)
    (hrow : s.db.participants.find? (fun r => r.id == pid) = some row)
    (hconn₀ : lookup_connection s₀ cid₀ = some c₀)
    (hnever : c₀.participant_id = none) :
    (handle_ws_message verifyToken verify now cid .LeaveSession s sub).broadcasts
      = [(sid, .ParticipantLeft sid row.user_id)] ∧
    (handle_ws_message verifyToken verify now cid .LeaveSession s sub).result = .ok () ∧
    (handle_ws_message verifyToken verify now cid .LeaveSession s sub).sent = [] ∧
    (handle_ws_message verifyToken verify now' cid .LeaveSession
        (handle_ws_message verifyToken verify now cid .LeaveSession s sub).state
        sub).broadcasts
      = [(sid, .ParticipantLeft sid row.user_id)] ∧
    handle_ws_message verifyToken verify now cid₀ .LeaveSession s₀ sub₀
      = { state := s₀, sub := sub₀, sent := [], broadcasts := [], result := .ok () } := by
  have hrowid : row.id = pid := by
    have h0 := List.find?_some hrow
    exact beq_iff_eq.mp (by simpa using h0)
  have h1 : handle_ws_message verifyToken verify now cid .LeaveSession s sub
      = { state := { s with db := SessionParticipant.leave s.db now row }
          sub := sub, sent := []
          broadcasts := [(sid, .ParticipantLeft sid row.user_id)]
          result := .ok () } := by
    simp [handle_ws_message, hconn, hsid, hpid, handle_session_leave, hrow]
  have hconn1 : lookup_connection { s with db := SessionParticipant.leave s.db now row } cid
      = some c := hconn
  have hrow1 : (SessionParticipant.leave s.db now row).participants.find?
      (fun r => r.id == pid) = some { row with is_online := false, left_at := some now } := by
    show (s.db.participants.map (fun r => if r.id == row.id
        then { r with is_online := false, left_at := some now } else r)).find?
        (fun r => r.id == pid)
      = some { row with is_online := false, left_at := some now }
    exact find_map_leave s.db.participants pid row now hrow
  have h2 : (handle_ws_message verifyToken verify now' cid .LeaveSession
        { s with db := SessionParticipant.leave s.db now row } sub).broadcasts
      = [(sid, .ParticipantLeft sid row.user_id)] := by
    simp [handle_ws_message, hconn1, hsid, hpid, handle_session_leave, hrow1]
  have h0 : handle_ws_message verifyToken verify now cid₀ .LeaveSession s₀ sub₀
      = { state := s₀, sub := sub₀, sent := [], broadcasts := [], result := .ok () } := by
    cases hcs : c₀.session_id with
    | none => simp [handle_ws_message, hconn₀, hcs, hnever]
    | some x => simp [handle_ws_message, hconn₀, hcs, hnever]
  refine ⟨?_, ?_, ?_, ?_, h0⟩
  · rw [h1]
  · rw [h1]
  · rw [h1]
  · rw [h1]
    exact h2

/-- State after the C4 witness scenario is set up: the joined fixture. -/
theorem C4_amended_leave_rebroadcasts_witness :
    (handle_ws_message tokenOk pwEq 7 "c" .LeaveSession C4state (some 1)).broadcasts
      = [(1, .ParticipantLeft 1 onlineRow.user_id)] ∧
    (handle_ws_message tokenOk pwEq 7 "c" .LeaveSession C4state (some 1)).result = .ok () ∧
    (handle_ws_message tokenOk pwEq 7 "c" .LeaveSession C4state (some 1)).sent = [] ∧
    (handle_ws_message tokenOk pwEq 8 "c" .LeaveSession
        (handle_ws_message tokenOk pwEq 7 "c" .LeaveSession C4state (some 1)).state
        (some 1)).broadcasts
      = [(1, .ParticipantLeft 1 onlineRow.user_id)] ∧
    handle_ws_message tokenOk pwEq 7 "c" .LeaveSession C5state none
      = { state := C5state, sub := none, sent := [], broadcasts := [], result := .ok () } :=
  C4_amended_leave_rebroadcasts tokenOk pwEq 7 8 "c" "c" C4state C5state (some 1) none
    connJoined (connAuth 42) 1 50 onlineRow
    (by decide) (by decide) (by decide) (by decide) (by decide) (by decide)

/-! ### Claim C5 — amended: only authentication is checked -/

/-- C5 amended: the operation relay checks only that the connection has an
authenticated user — never membership: even when the caller has no online
participant row in the target session, the `Operation` frame is persisted
(appended to the session's log under the caller's id with the clock as
timestamp) and broadcast as `ServerOperation`, with an `Ok` result and no
frame sent back. -/
theorem C5_amended_no_membership_check
    (verifyToken : String → Except String AuthContext)
    (verify : String → String → Bool) (now : Nat) (cid : String)
    (s : WsServerState) (sub : Option Nat) (sid uid : Nat)
    (ty : OperationType) (pos : Option Int) (content : Option String)
    (len : Option Int) (fid : Option Nat)
    (hu : (lookup_connection s cid).bind (fun c => c.user.map (fun u => u.user_id))
      = some uid)
    (hmem : online_rows s.db sid uid = []) :
    (handle_ws_message verifyToken verify now cid
        (.Operation sid ty pos content len fid) s sub).result = .ok () ∧
    (handle_ws_message verifyToken verify now cid
        (.Operation sid ty pos content len fid) s sub).sent = [] ∧
    (session_ops (handle_ws_message verifyToken verify now cid
        (.Operation sid ty pos content len fid) s sub).state.db sid).map
          (fun o => (o.user_id, o.timestamp))
      = (session_ops s.db sid).map (fun o => (o.user_id, o.timestamp)) ++ [(uid, now)] ∧
    (handle_ws_message verifyToken verify now cid
        (.Operation sid ty pos content len fid) s sub).broadcasts
      = [(sid, .ServerOperation sid uid ty pos content len fid now)] := by
  have hstate : handle_ws_message verifyToken verify now cid
      (.Operation sid ty pos content len fid) s sub
      = { state := { s with db := opResultDb (handle_operation s.db now sid uid ty pos content len fid) }
          sub := sub, sent := []
          broadcasts := [(sid, .ServerOperation sid uid ty pos content len fid now)]
          result := .ok () } := by
    simp [handle_ws_message, hu, handle_operation, opResultDb, SessionOperation.create]
  rw [hstate]
  refine ⟨rfl, rfl, ?_, rfl⟩
  exact handle_operation_session_map (fun o => (o.user_id, o.timestamp))
    s.db now sid uid ty pos content len fid (fun _ => rfl)

/-- C5 witness: the amended theorem at the fixture where user 42 is
authenticated but holds no participant row in session 1. -/
theorem C5_amended_no_membership_check_witness :
    (handle_ws_message tokenOk pwEq 7 "c"
        (.Operation 1 .Insert (some 0) (some "hi") none none) C5state none).result
      = .ok () ∧
    (handle_ws_message tokenOk pwEq 7 "c"
        (.Operation 1 .Insert (some 0) (some "hi") none none) C5state none).sent = [] ∧
    (session_ops (handle_ws_message tokenOk pwEq 7 "c"
        (.Operation 1 .Insert (some 0) (some "hi") none none) C5state none).state.db 1).map
          (fun o => (o.user_id, o.timestamp))
      = (session_ops C5state.db 1).map (fun o => (o.user_id, o.timestamp)) ++ [(42, 7)] ∧
    (handle_ws_message tokenOk pwEq 7 "c"
        (.Operation 1 .Insert (some 0) (some "hi") none none) C5state none).broadcasts
      = [(1, .ServerOperation 1 42 .Insert (some 0) (some "hi") none none 7)] :=
  C5_amended_no_membership_check tokenOk pwEq 7 "c" C5state none 1 42 .Insert
    (some 0) (some "hi") none none (by decide) (by decide)

/-! ### Claim C6 — amended: rejoin duplicates the online row -/

/-- C6 amended: `SessionParticipant::join` is an unconditional insert — a
join for a user who already has an online row in the session neither retires
nor reuses it: whenever access validation passes, the join succeeds and the
number of online rows for that `(session, user)` pair grows by one, so after
a rejoin of an already-online user at least two rows are online, violating
the claimed invariant. -/
theorem C6_amended_duplicate_online_rows (s : WsServerState)
    (verify : String → String → Bool) (now : Nat) (cid : String)
    (sid uid : Nat) (role : ParticipantRole) (pw : Option String)
    (sess : CollaborationSession)
    (hfind : find_with_access s.db verify sid uid pw = some sess)
    (halready : 1 ≤ (online_rows s.db sid uid).length) :
    joinResultOk (handle_session_join s verify now cid sid uid role pw) = true ∧
    (online_rows (joinResultDb (handle_session_join s verify now cid sid uid role pw)) sid uid).length
      = (online_rows s.db sid uid).length + 1 ∧
    2 ≤ (online_rows (joinResultDb (handle_session_join s verify now cid sid uid role pw)) sid uid).length := by
  unfold handle_session_join
  rw [hfind]
  have hlen : (online_rows (joinResultDb (Except.ok
      ((SessionParticipant.join s.db now sid uid role).1,
        update_connection { s with db := (SessionParticipant.join s.db now sid uid role).2 } cid
          (fun c => { c with session_id := some sid
                             participant_id := some (SessionParticipant.join s.db now sid uid role).1.id
                             last_heartbeat := now }),
        [(sid, WsMessage.ParticipantUpdate sid (SessionParticipant.join s.db now sid uid role).1)]))) sid uid).length
      = (online_rows s.db sid uid).length + 1 := by
    show ((s.db.participants ++ [(SessionParticipant.join s.db now sid uid role).1]).filter
        (fun r => r.session_id == sid && r.user_id == uid && r.is_online)).length
      = (online_rows s.db sid uid).length + 1
    rw [List.filter_append]
    have hp : ((SessionParticipant.join s.db now sid uid role).1.session_id == sid
        && (SessionParticipant.join s.db now sid uid role).1.user_id == uid
        && (SessionParticipant.join s.db now sid uid role).1.is_online) = true := by
      simp [SessionParticipant.join]
    simp only [List.filter_cons, hp, List.filter_nil, List.length_append]
    rfl
  refine ⟨rfl, hlen, ?_⟩
  rw [hlen]
  omega

/-- C6 witness: the amended theorem at the fixture where user 10 is already
online in session 1 and rejoins. -/
theorem C6_amended_duplicate_online_rows_witness :
    joinResultOk (handle_session_join C6state pwEq 7 "d" 1 10 .Editor none) = true ∧
    (online_rows (joinResultDb (handle_session_join C6state pwEq 7 "d" 1 10 .Editor none)) 1 10).length
      = (online_rows C6state.db 1 10).length + 1 ∧
    2 ≤ (online_rows (joinResultDb (handle_session_join C6state pwEq 7 "d" 1 10 .Editor none)) 1 10).length :=
  C6_amended_duplicate_online_rows C6state pwEq 7 "d" 1 10 .Editor none baseSession
    (by decide) (by decide)

/-! ### Claim C8 — amended: no idle-timeout cleanup exists -/

/-- C8 amended: the server's only timer behaviour is the outbound transport
`Ping` every heartbeat tick, which changes no state — iterating any number
of monitor cycles leaves the whole server state (registry and store)
identical, so a silent connection is never cleaned up by the monitor; the
`Pong` handler only refreshes `last_heartbeat` in the registry and touches
no persisted row, and no code path compares `last_heartbeat` to a timeout.
Cleanup happens only when the socket itself errors or closes. -/
theorem C8_amended_no_timeout_check (s : WsServerState) (n now : Nat)
    (cid : String) :
    heartbeat_tick s = (s, [TransportMessage.Ping]) ∧
    (fun st => (heartbeat_tick st).1)^[n] s = s ∧
    (handle_transport_pong s now cid).db = s.db := by
  refine ⟨rfl, ?_, rfl⟩
  exact Function.iterate_fixed rfl n

/-! ### Claim C9 — amended: cursor frames are dropped, never persisted -/

/-- C9 amended: a `Cursor` frame — even from a joined online participant —
matches only the wildcard arm of `handle_ws_message`: the server state is
returned unchanged and nothing is sent, broadcast, or persisted;
`SessionParticipant::update_cursor` (which would store the latest
position/selection on the row, last-write-wins) exists in the model layer
but is never invoked by any message path. -/
theorem C9_amended_cursor_ignored
    (verifyToken : String → Except String AuthContext)
    (verify : String → String → Bool) (now : Nat) (cid : String)
    (s : WsServerState) (sub : Option Nat) (sid : Nat) (cpos : Int)
    (csel : Option String) (db : Db) (p : SessionParticipant)
    (pos1 pos2 : Option Int) (sel1 sel2 : Option String) :
    handle_ws_message verifyToken verify now cid (.Cursor sid cpos csel) s sub
      = { state := s, sub := sub, sent := [], broadcasts := [], result := .ok () } ∧
    SessionParticipant.update_cursor
        (SessionParticipant.update_cursor db p pos1 sel1) p pos2 sel2
      = SessionParticipant.update_cursor db p pos2 sel2 := by
  constructor
  · simp [handle_ws_message]
  · show ({ db with participants := (List.map (fun r => if r.id == p.id then { r with cursor_position := pos2, selection := sel2 } else r) (List.map (fun r => if r.id == p.id then { r with cursor_position := pos1, selection := sel1 } else r) db.participants)) } : Db)
      = { db with participants := (List.map (fun r => if r.id == p.id then { r with cursor_position := pos2, selection := sel2 } else r) db.participants) }
    congr 1
    rw [List.map_map]
    refine List.map_congr_left ?_
    intro r _
    by_cases h : (r.id == p.id) = true
    · simp only [Function.comp_apply, if_pos h]
    · simp only [Function.comp_apply, if_neg h]

end Texler
